import Mathlib

/-!
Shallow embedding of the geometry-extraction core of
`src/pre-processing/dxf_to_stl_3dface.py` (function `dxf_to_stl_3dface`).

Coordinates are modelled as exact rationals (ℚ); the tolerances involved
(0.001, 0.0009, 0.0011) are far from binary-float representation error, so
the exact model faithfully captures the comparisons the source performs.

The function's mutable locals (`all_vertices`, `all_faces`, `vertex_offset`
and the four counters, lines 64-71) become the fields of `ConvState`; each
of the three extraction loops (direct 3DFACE lines 88-137, INSERT blocks
lines 144-209, POLYLINE polyface meshes lines 216-266) becomes a fold of a
step function over the corresponding entity list.  Entities whose attribute
access raises in the source are modelled with explicit `raising` flags, since
each loop body wraps its work in a try/except.
-/

/-- A 3D point (`[pt.x, pt.y, pt.z]` in the source). -/
structure Point where
  x : ℚ
  y : ℚ
  z : ℚ
deriving DecidableEq, Repr

/-- A triangle appended to `all_faces`: a record of three vertex indices
(the source appends length-3 Python lists). -/
structure Triangle where
  i0 : Nat
  i1 : Nat
  i2 : Nat
deriving DecidableEq, Repr

/-- The mutable locals of `dxf_to_stl_3dface` (lines 64-71). -/
structure ConvState where
  all_vertices : List Point
  all_faces : List Triangle
  vertex_offset : Nat
  valid_3dface : Nat
  invalid_3dface : Nat
  valid_polyline : Nat
  invalid_polyline : Nat
deriving DecidableEq, Repr

/-- Initial state (lines 64-71: empty lists, zero counters). -/
def initState : ConvState := ⟨[], [], 0, 0, 0, 0, 0⟩

/-- Python's `abs` on a rational, written so that the kernel can evaluate it
(Mathlib's lattice-derived `|·|` does not reduce under `decide`). -/
def ratAbs (q : ℚ) : ℚ := if q < 0 then -q else q

/-- The per-pair tolerance test of the dedup loop (line 106):
`abs(v[0]-uv[0]) < 0.001 and abs(v[1]-uv[1]) < 0.001 and abs(v[2]-uv[2]) < 0.001`. -/
def near (v uv : Point) : Bool :=
  decide (ratAbs (v.x - uv.x) < 1 / 1000) &&
  decide (ratAbs (v.y - uv.y) < 1 / 1000) &&
  decide (ratAbs (v.z - uv.z) < 1 / 1000)

/-- The dedup loop (lines 102-110): walk the candidates, keeping a point
only when it is not `near` any already-kept point. -/
def dedupAux (unique_verts : List Point) : List Point → List Point
  | [] => unique_verts
  | v :: rest =>
    if unique_verts.any (fun uv => near v uv) then dedupAux unique_verts rest
    else dedupAux (unique_verts ++ [v]) rest

/-- The Vertex Deduplicator: `unique_verts` computed from `vertices`
(lines 102-110). -/
def dedup (vs : List Point) : List Point := dedupAux [] vs

/-- A 3DFACE entity: the four optional corner attributes `vtx0..vtx3`
(absent attribute and `None` value are both modelled as `none`, since the
source skips both, lines 93-97), or an entity whose attribute access raises
(caught at lines 130-133 resp. 202-203). -/
inductive FaceEnt where
  | ok (vtx0 vtx1 vtx2 vtx3 : Option Point)
  | raising
deriving DecidableEq, Repr

/-- The shared body of the direct-face loop (lines 99-128) and the
block-nested-face loop (lines 171-200); the two are textually identical in
the source, operating on the collected corner list `vertices`. -/
def faceCore (st : ConvState) (vertices : List Point) : ConvState :=
  if 3 ≤ vertices.length then
    if 3 ≤ (dedup vertices).length then
      { st with
        all_vertices := st.all_vertices ++ dedup vertices
        , all_faces := st.all_faces ++
            (if (dedup vertices).length = 3 then
              [⟨st.all_vertices.length, st.all_vertices.length + 1,
                st.all_vertices.length + 2⟩]
            else
              [⟨st.all_vertices.length, st.all_vertices.length + 1,
                st.all_vertices.length + 2⟩,
               ⟨st.all_vertices.length, st.all_vertices.length + 2,
                st.all_vertices.length + 3⟩])
        , valid_3dface := st.valid_3dface + 1 }
    else { st with invalid_3dface := st.invalid_3dface + 1 }
  else { st with invalid_3dface := st.invalid_3dface + 1 }

/-- One iteration of the direct-3DFACE loop (lines 88-133). -/
def process3dface (st : ConvState) (e : FaceEnt) : ConvState :=
  match e with
  | .raising => { st with invalid_3dface := st.invalid_3dface + 1 }
  | .ok a b c d => faceCore st (([a, b, c, d]).filterMap id)

/-- The 4×4 placement transform of a block instance (`entity.matrix44()`,
line 155), restricted to its affine action on points: a 3×3 linear part and
a translation column. -/
structure TransformMatrix where
  a11 : ℚ
  a12 : ℚ
  a13 : ℚ
  tx : ℚ
  a21 : ℚ
  a22 : ℚ
  a23 : ℚ
  ty : ℚ
  a31 : ℚ
  a32 : ℚ
  a33 : ℚ
  tz : ℚ
deriving DecidableEq, Repr

/-- `insert_matrix.transform(pt)` (line 168). -/
def TransformMatrix.transform (m : TransformMatrix) (p : Point) : Point :=
  { x := m.a11 * p.x + m.a12 * p.y + m.a13 * p.z + m.tx
  , y := m.a21 * p.x + m.a22 * p.y + m.a23 * p.z + m.ty
  , z := m.a31 * p.x + m.a32 * p.y + m.a33 * p.z + m.tz }

/-- A pure-translation placement matrix. -/
def TransformMatrix.translateBy (dx dy dz : ℚ) : TransformMatrix :=
  ⟨1, 0, 0, dx, 0, 1, 0, dy, 0, 0, 1, dz⟩

/-- Pointwise translation of a point. -/
def Point.shift (p : Point) (dx dy dz : ℚ) : Point :=
  ⟨p.x + dx, p.y + dy, p.z + dz⟩

/-- Translate every present corner of a face entity. -/
def FaceEnt.shift (e : FaceEnt) (dx dy dz : ℚ) : FaceEnt :=
  match e with
  | .ok a b c d =>
    .ok (a.map (fun p => p.shift dx dy dz)) (b.map (fun p => p.shift dx dy dz))
      (c.map (fun p => p.shift dx dy dz)) (d.map (fun p => p.shift dx dy dz))
  | .raising => .raising

/-- One iteration of the nested-face loop inside a block (lines 158-203):
identical to `process3dface` except that each collected corner is first
mapped through the instance's transform (line 168). -/
def processBlockFace (m : TransformMatrix) (st : ConvState) (e : FaceEnt) : ConvState :=
  match e with
  | .raising => { st with invalid_3dface := st.invalid_3dface + 1 }
  | .ok a b c d => faceCore st ((([a, b, c, d]).filterMap id).map m.transform)

/-- An INSERT entity: a referenced block name (line 145) and the placement
matrix `entity.matrix44()` (line 155). -/
structure InsertEnt where
  name : String
  matrix44 : TransformMatrix
deriving DecidableEq, Repr

/-- `doc.blocks.get(block_name)` (line 146): association-list lookup,
`none` when the block is undefined. -/
def lookupBlock (bs : List (String × List FaceEnt)) (n : String) : Option (List FaceEnt) :=
  match bs with
  | [] => none
  | (k, v) :: rest => if k = n then some v else lookupBlock rest n

/-- One iteration of the INSERT loop (lines 144-203): an undefined block is
skipped entirely (lines 148-149), otherwise every nested 3DFACE is run
through the block-face logic. -/
def processInsert (blocks : List (String × List FaceEnt)) (st : ConvState)
    (ins : InsertEnt) : ConvState :=
  match lookupBlock blocks ins.name with
  | none => st
  | some bf => bf.foldl (processBlockFace ins.matrix44) st

/-- One sub-record of a polyface mesh (an element of `entity.vertices`,
line 224).  `location` is the optional coordinate attribute (line 228);
`faceAttrs` is `some attrs` when the record has a `vtx0` attribute
(line 236), with `attrs` the values of the present attributes among
`vtx0..vtx3` in order (`none` = attribute value is `None`, line 242).
`raisesLoc` / `raisesFace` model an attribute access raising in the
first / second pass over the record list (caught at lines 257-260). -/
structure PolyRecord where
  raisesLoc : Bool
  location : Option Point
  raisesFace : Bool
  faceAttrs : Option (List (Option Int))
deriving DecidableEq, Repr

/-- First pass over the record list (lines 227-232): collect coordinates
into the entity-local `vertices` list and build `vertex_map`, which maps a
record's position in the list to its ordinal among located records.
`vmap` is represented positionally: entry `i` is `some ord` exactly when
`vertex_map` has key `i` with value `ord`. -/
def collectVerticesAux (vs : List Point) (vmap : List (Option Nat)) :
    List PolyRecord → Except Unit (List Point × List (Option Nat))
  | [] => Except.ok (vs, vmap)
  | r :: rest =>
    if r.raisesLoc then Except.error () else
    match r.location with
    | some p => collectVerticesAux (vs ++ [p]) (vmap ++ [some vs.length]) rest
    | none => collectVerticesAux vs (vmap ++ [none]) rest

/-- `vertex_map` lookup: `vertex_map[i]` when `i in vertex_map`, else
no resolution (line 244). -/
def vmapGet : List (Option Nat) → Nat → Option Nat
  | [], _ => none
  | o :: _, 0 => o
  | _ :: rest, i + 1 => vmapGet rest i

/-- Resolution of one face record's index attributes (lines 239-245): skip
`None` values and zero indices; a non-zero index `idx` resolves as
`abs(idx) - 1` against `vertex_map`, translated by `vertex_offset`. -/
def resolveAttrs (vmap : List (Option Nat)) (off : Nat) : List (Option Int) → List Nat
  | [] => []
  | none :: rest => resolveAttrs vmap off rest
  | some i :: rest =>
    if i = 0 then resolveAttrs vmap off rest
    else
      match vmapGet vmap (i.natAbs - 1) with
      | some ord => (ord + off) :: resolveAttrs vmap off rest
      | none => resolveAttrs vmap off rest

/-- Triangles appended for one record in the face pass (lines 235-252):
3 resolved indices → one triangle, 4 → fan split, anything else → none. -/
def facesOfRecord (vmap : List (Option Nat)) (off : Nat) (r : PolyRecord) : List Triangle :=
  match r.faceAttrs with
  | none => []
  | some attrs =>
    match resolveAttrs vmap off attrs with
    | [a, b, c] => [⟨a, b, c⟩]
    | [a, b, c, d] => [⟨a, b, c⟩, ⟨a, c, d⟩]
    | _ => []

/-- Second pass over the record list (lines 235-252), appending triangles
record by record.  The Boolean is `true` when some record's attribute access
raised: the triangles appended before that record are kept (they were
already pushed onto `all_faces` when the exception fired). -/
def extractFaces (vmap : List (Option Nat)) (off : Nat) :
    List PolyRecord → List Triangle × Bool
  | [] => ([], false)
  | r :: rest =>
    if r.raisesFace then ([], true)
    else
      match extractFaces vmap off rest with
      | (fs, b) => (facesOfRecord vmap off r ++ fs, b)

/-- A POLYLINE entity: the `is_poly_face_mesh` flag (line 217) and its
sub-record list `entity.vertices` (line 224). -/
structure PolyEntity where
  is_poly_face_mesh : Bool
  records : List PolyRecord
deriving DecidableEq, Repr

/-- One iteration of the POLYLINE loop (lines 216-260).  Mirrors the
source's ordering exactly: `valid_polyline` is incremented at the top of
the try block (line 219); on success the entity's vertices are appended
after the face pass (line 254) and `vertex_offset` advances by their count
(line 255); on an exception only `invalid_polyline` is incremented, keeping
whatever triangles were already appended. -/
def processPolyline (st : ConvState) (e : PolyEntity) : ConvState :=
  if e.is_poly_face_mesh then
    let st1 := { st with valid_polyline := st.valid_polyline + 1 }
    match collectVerticesAux [] [] e.records with
    | Except.error _ => { st1 with invalid_polyline := st1.invalid_polyline + 1 }
    | Except.ok (verts, vmap) =>
      match extractFaces vmap st1.vertex_offset e.records with
      | (fs, true) =>
        { st1 with all_faces := st1.all_faces ++ fs
                 , invalid_polyline := st1.invalid_polyline + 1 }
      | (fs, false) =>
        { st1 with all_faces := st1.all_faces ++ fs
                 , all_vertices := st1.all_vertices ++ verts
                 , vertex_offset := st1.vertex_offset + verts.length }
  else st

/-- A parsed document, as consumed by the extraction loops: the modelspace
3DFACE entities, the INSERT entities, the block table, and the POLYLINE
entities, each in query order. -/
structure Doc where
  faces3d : List FaceEnt
  inserts : List InsertEnt
  blocks : List (String × List FaceEnt)
  polylines : List PolyEntity
deriving DecidableEq, Repr

/-- The whole extraction phase of `dxf_to_stl_3dface` (lines 63-266): the
three loops run in order over one shared state. -/
def runConversion (d : Doc) : ConvState :=
  let st1 := d.faces3d.foldl process3dface initState
  let st2 := d.inserts.foldl (processInsert d.blocks) st1
  d.polylines.foldl processPolyline st2

/-- The whole-file error raised when no geometry was extracted
(lines 275-279). -/
inductive ConvError where
  | emptyGeometry
deriving DecidableEq, Repr

/-- The per-kind counters reported at the end (lines 268-271). -/
structure ConversionStats where
  valid_3dface : Nat
  invalid_3dface : Nat
  valid_polyline : Nat
  invalid_polyline : Nat
deriving DecidableEq, Repr

/-- Read the counters out of the final state. -/
def statsOf (st : ConvState) : ConversionStats :=
  ⟨st.valid_3dface, st.invalid_3dface, st.valid_polyline, st.invalid_polyline⟩

/-- The non-emptiness check and hand-off (lines 275-295): raise when either
buffer is empty, otherwise pass the buffers (and the diagnostic counters)
onward to the mesh/export stage. -/
def finalize (st : ConvState) :
    Except ConvError (List Point × List Triangle × ConversionStats) :=
  if st.all_vertices.length = 0 ∨ st.all_faces.length = 0 then
    Except.error ConvError.emptyGeometry
  else
    Except.ok (st.all_vertices, st.all_faces, statsOf st)

/-! ## Deduplicator lemmas -/

theorem dedupAux_length_le (vs : List Point) :
    ∀ acc, (dedupAux acc vs).length ≤ acc.length + vs.length := by
  induction vs with
  | nil => intro acc; simp [dedupAux]
  | cons v rest ih =>
    intro acc
    simp only [dedupAux]
    split
    · have := ih acc
      simp only [List.length_cons]
      omega
    · have := ih (acc ++ [v])
      simp only [List.length_append, List.length_cons, List.length_nil] at this ⊢
      omega

theorem dedup_length_le (vs : List Point) : (dedup vs).length ≤ vs.length := by
  have := dedupAux_length_le vs []
  simpa [dedup] using this

/-- The spec's acceptance test as a proposition: the candidate lies within
the 0.001 tolerance of the accepted point on every axis (the source's
comparison is strict). -/
def within (v uv : Point) : Prop :=
  |v.x - uv.x| < 1 / 1000 ∧ |v.y - uv.y| < 1 / 1000 ∧ |v.z - uv.z| < 1 / 1000

theorem ratAbs_eq_abs (q : ℚ) : ratAbs q = |q| := by
  by_cases h : q < 0
  · simp [ratAbs, h, abs_of_neg h]
  · simp [ratAbs, h, abs_of_nonneg (not_lt.mp h)]

theorem near_iff_within (v uv : Point) : near v uv = true ↔ within v uv := by
  simp [near, within, ratAbs_eq_abs, and_assoc]

/-- Modelled from the spec's words for the Vertex Deduplicator contract:
relative to already-accepted points `acc`, a later point of the input is
dropped exactly when it lies within tolerance of an already-accepted
earlier point (first occurrence wins); the third list is the newly accepted
output. -/
inductive DedupSpec : List Point → List Point → List Point → Prop where
  | nil (acc : List Point) : DedupSpec acc [] []
  | drop (acc : List Point) (v : Point) (vs out : List Point)
      (h : ∃ uv ∈ acc, within v uv) (t : DedupSpec acc vs out) :
      DedupSpec acc (v :: vs) out
  | keep (acc : List Point) (v : Point) (vs out : List Point)
      (h : ∀ uv ∈ acc, ¬ within v uv) (t : DedupSpec (acc ++ [v]) vs out) :
      DedupSpec acc (v :: vs) (v :: out)

theorem dedupAux_spec (vs : List Point) :
    ∀ acc, ∃ out, dedupAux acc vs = acc ++ out ∧ DedupSpec acc vs out := by
  induction vs with
  | nil => exact fun acc => ⟨[], by simp [dedupAux], DedupSpec.nil acc⟩
  | cons v rest ih =>
    intro acc
    by_cases h : acc.any (fun uv => near v uv) = true
    · obtain ⟨out, he, hs⟩ := ih acc
      refine ⟨out, by simp [dedupAux, h, he], ?_⟩
      refine DedupSpec.drop acc v rest out ?_ hs
      rcases List.any_eq_true.mp h with ⟨uv, huv, hnear⟩
      exact ⟨uv, huv, (near_iff_within v uv).mp hnear⟩
    · obtain ⟨out, he, hs⟩ := ih (acc ++ [v])
      refine ⟨v :: out, by simp [dedupAux, h, he], ?_⟩
      refine DedupSpec.keep acc v rest out ?_ hs
      intro uv huv hw
      exact h (List.any_eq_true.mpr ⟨uv, huv, (near_iff_within v uv).mpr hw⟩)

/-- Claim C4: the Vertex Deduplicator, given an ordered list of at most 4
points, returns the subsequence in which a later point is dropped exactly
when it lies within 0.001 on every axis of some already-accepted earlier
point (first occurrence wins, comparison against accepted points only);
two points differing by 0.0009 on every axis merge into one, and two points
differing by 0.0011 on a single axis do not merge. -/
theorem c4_dedup_contract :
    (∀ vs : List Point, vs.length ≤ 4 → DedupSpec [] vs (dedup vs)) ∧
    (∀ p : Point,
      dedup [p, ⟨p.x + 9 / 10000, p.y + 9 / 10000, p.z + 9 / 10000⟩] = [p]) ∧
    (∀ p q : Point,
      |q.x - p.x| = 11 / 10000 ∨ |q.y - p.y| = 11 / 10000 ∨ |q.z - p.z| = 11 / 10000 →
      dedup [p, q] = [p, q]) := by
  refine ⟨?_, ?_, ?_⟩
  · intro vs _
    obtain ⟨out, he, hs⟩ := dedupAux_spec vs []
    have : dedup vs = out := by simpa [dedup] using he
    rwa [this]
  · intro p
    have h9 : |(9 : ℚ) / 10000| < 1 / 1000 := by
      rw [abs_of_nonneg (by norm_num : (0 : ℚ) ≤ 9 / 10000)]
      norm_num
    have hnear : near ⟨p.x + 9 / 10000, p.y + 9 / 10000, p.z + 9 / 10000⟩ p = true := by
      rw [near_iff_within]
      refine ⟨?_, ?_, ?_⟩
      · simp only [add_sub_cancel_left]; exact h9
      · simp only [add_sub_cancel_left]; exact h9
      · simp only [add_sub_cancel_left]; exact h9
    simp [dedup, dedupAux, hnear]
  · intro p q h
    have hw : ¬ within q p := by
      intro hwit
      rcases h with h | h | h
      · exact absurd hwit.1 (by rw [h]; norm_num)
      · exact absurd hwit.2.1 (by rw [h]; norm_num)
      · exact absurd hwit.2.2 (by rw [h]; norm_num)
    have hnear : near q p = false := by
      cases hn : near q p with
      | false => rfl
      | true => exact absurd ((near_iff_within q p).mp hn) hw
    simp [dedup, dedupAux, hnear]

theorem c4_dedup_contract_witness :
    DedupSpec [] [⟨0, 0, 0⟩, ⟨2, 0, 0⟩] (dedup [⟨0, 0, 0⟩, ⟨2, 0, 0⟩]) ∧
    dedup [⟨0, 0, 0⟩, ⟨0 + 9 / 10000, 0 + 9 / 10000, 0 + 9 / 10000⟩] = [⟨0, 0, 0⟩] ∧
    dedup [⟨0, 0, 0⟩, ⟨11 / 10000, 0, 0⟩] = [⟨0, 0, 0⟩, ⟨11 / 10000, 0, 0⟩] := by
  refine ⟨c4_dedup_contract.1 _ (by decide), ?_, ?_⟩
  · exact c4_dedup_contract.2.1 ⟨0, 0, 0⟩
  · refine c4_dedup_contract.2.2 ⟨0, 0, 0⟩ ⟨11 / 10000, 0, 0⟩ (Or.inl ?_)
    show |(11 : ℚ) / 10000 - 0| = 11 / 10000
    rw [sub_zero]
    exact abs_of_nonneg (by norm_num)

/-! ## C1: the polyface offset against the global vertex buffer -/

/-- A document with one valid direct 3DFACE (three distinct corners) followed
by one polyface mesh: a 3-vertex table at (10,0,0),(11,0,0),(10,1,0) and one
face record [1,2,3]. -/
def c1doc : Doc :=
  { faces3d := [FaceEnt.ok (some ⟨0, 0, 0⟩) (some ⟨1, 0, 0⟩) (some ⟨0, 1, 0⟩) none]
  , inserts := []
  , blocks := []
  , polylines :=
      [⟨true, [⟨false, some ⟨10, 0, 0⟩, false, none⟩,
               ⟨false, some ⟨11, 0, 0⟩, false, none⟩,
               ⟨false, some ⟨10, 1, 0⟩, false, none⟩,
               ⟨false, none, false, some [some 1, some 2, some 3, none]⟩]⟩] }

/-- Claim C1 is violated by the code: in `c1doc` the polyface entity's
vertices land at global positions 3,4,5 of the vertex buffer, but the
captured offset (`vertex_offset`, which only ever counts polyface-collected
vertices, lines 66 and 255) is 0, so the decoded triangle is (0,1,2) — it
references the direct-face pipeline's vertices instead of the polyface's
own.  The claim would require the second triangle to be (3,4,5). -/
theorem c1_polyface_offset_code_eval :
    (runConversion c1doc).all_vertices =
      [⟨0, 0, 0⟩, ⟨1, 0, 0⟩, ⟨0, 1, 0⟩, ⟨10, 0, 0⟩, ⟨11, 0, 0⟩, ⟨10, 1, 0⟩] ∧
    (runConversion c1doc).all_faces = [⟨0, 1, 2⟩, ⟨0, 1, 2⟩] ∧
    (runConversion c1doc).vertex_offset = 3 := by
  refine ⟨?_, ?_, ?_⟩ <;> with_unfolding_all rfl

/-! ## C2: the triangle-index invariant -/

/-- A document with a single polyface entity: three vertex records and one
face record [1,1,2] (a repeated index). -/
def c2doc : Doc :=
  { faces3d := [], inserts := [], blocks := []
  , polylines :=
      [⟨true, [⟨false, some ⟨0, 0, 0⟩, false, none⟩,
               ⟨false, some ⟨1, 0, 0⟩, false, none⟩,
               ⟨false, some ⟨0, 1, 0⟩, false, none⟩,
               ⟨false, none, false, some [some 1, some 1, some 2, none]⟩]⟩] }

/-- Counterexample to claim C2: the conversion of `c2doc` appends the
triangle (0,0,1), whose first two indices coincide — the polyface pipeline
never checks its resolved indices for distinctness (lines 239-252). -/
theorem c2_counterexample_repeated_index :
    (runConversion c2doc).all_faces = [⟨0, 0, 1⟩] ∧
    (Triangle.mk 0 0 1).i0 = (Triangle.mk 0 0 1).i1 := by
  exact ⟨by with_unfolding_all rfl, rfl⟩

/-! ## C5: a raising polyface entity -/

/-- A document with two polyface entities: the first raises while its
records are scanned, the second is well-formed with one vertex record. -/
def c5doc : Doc :=
  { faces3d := [], inserts := [], blocks := []
  , polylines :=
      [⟨true, [⟨true, none, false, none⟩]⟩,
       ⟨true, [⟨false, some ⟨5, 5, 5⟩, false, none⟩]⟩] }

/-- Claim C5 is violated by the code on its "valid counter" part: for a
polyface entity whose decoding raises, `invalid_polyline` increments by 1
and processing continues with later entities (both as claimed), but
`valid_polyline` increments as well, because the source bumps it at the top
of the try block (line 219) before doing any work.  After `c5doc`,
`valid_polyline` is 2 although only one entity decoded successfully. -/
theorem c5_polyline_exception_code_eval :
    (runConversion c5doc).valid_polyline = 2 ∧
    (runConversion c5doc).invalid_polyline = 1 ∧
    (runConversion c5doc).all_vertices = [⟨5, 5, 5⟩] := by
  refine ⟨?_, ?_, ?_⟩ <;> with_unfolding_all rfl

/-! ## C8: the empty-geometry check -/

/-- Claim C8: after all pipelines have run, the conversion raises the
empty-geometry error iff the vertex buffer or the triangle buffer is empty;
otherwise it hands (vertices, triangles, stats) onward without raising. -/
theorem c8_empty_geometry_check (st : ConvState) :
    (finalize st = Except.error ConvError.emptyGeometry ↔
      st.all_vertices = [] ∨ st.all_faces = []) ∧
    (st.all_vertices ≠ [] → st.all_faces ≠ [] →
      finalize st = Except.ok (st.all_vertices, st.all_faces, statsOf st)) := by
  have hiff : (st.all_vertices.length = 0 ∨ st.all_faces.length = 0) ↔
      (st.all_vertices = [] ∨ st.all_faces = []) := by
    simp [List.length_eq_zero]
  constructor
  · by_cases h : st.all_vertices.length = 0 ∨ st.all_faces.length = 0
    · rw [finalize, if_pos h]
      simp [hiff.mp h]
    · rw [finalize, if_neg h]
      rw [hiff] at h
      simp [h]
  · intro h1 h2
    have hn : ¬ (st.all_vertices.length = 0 ∨ st.all_faces.length = 0) := by
      rw [hiff]
      tauto
    rw [finalize, if_neg hn]

theorem c8_empty_geometry_check_witness :
    finalize ⟨[⟨0, 0, 0⟩], [⟨0, 0, 0⟩], 0, 1, 0, 0, 0⟩ =
      Except.ok ([⟨0, 0, 0⟩], [⟨0, 0, 0⟩], ⟨1, 0, 0, 0⟩) :=
  (c8_empty_geometry_check ⟨[⟨0, 0, 0⟩], [⟨0, 0, 0⟩], 0, 1, 0, 0, 0⟩).2
    (by simp) (by simp)

/-! ## Direct/block face extraction lemmas -/

theorem faceCore_valid (st : ConvState) (cs : List Point)
    (h3 : 3 ≤ (dedup cs).length) :
    faceCore st cs = { st with
      all_vertices := st.all_vertices ++ dedup cs
      , all_faces := st.all_faces ++
          (if (dedup cs).length = 3 then
            [⟨st.all_vertices.length, st.all_vertices.length + 1,
              st.all_vertices.length + 2⟩]
          else
            [⟨st.all_vertices.length, st.all_vertices.length + 1,
              st.all_vertices.length + 2⟩,
             ⟨st.all_vertices.length, st.all_vertices.length + 2,
              st.all_vertices.length + 3⟩])
      , valid_3dface := st.valid_3dface + 1 } := by
  have hlen : 3 ≤ cs.length := le_trans h3 (dedup_length_le cs)
  rw [faceCore, if_pos hlen, if_pos h3]

theorem faceCore_invalid (st : ConvState) (cs : List Point)
    (h : cs.length < 3 ∨ (dedup cs).length < 3) :
    faceCore st cs = { st with invalid_3dface := st.invalid_3dface + 1 } := by
  by_cases hlen : 3 ≤ cs.length
  · have hd : ¬ 3 ≤ (dedup cs).length := by
      have := dedup_length_le cs
      rcases h with h | h <;> omega
    rw [faceCore, if_pos hlen, if_neg hd]
  · rw [faceCore, if_neg hlen]

/-- What claim C3 asserts about processing one face entity whose corner
list `cs` survives deduplication with at least 3 points: exactly the unique
corners appended in order, one triangle for 3 unique corners, two fan-split
triangles sharing the first corner for 4, the valid counter up by exactly
one, and nothing else changed. -/
def validFaceResult (st : ConvState) (cs : List Point) (st2 : ConvState) : Prop :=
  st2.all_vertices = st.all_vertices ++ dedup cs ∧
  ((dedup cs).length = 3 ∨ (dedup cs).length = 4) ∧
  ((dedup cs).length = 3 →
    st2.all_faces = st.all_faces ++
      [⟨st.all_vertices.length, st.all_vertices.length + 1,
        st.all_vertices.length + 2⟩]) ∧
  ((dedup cs).length = 4 →
    st2.all_faces = st.all_faces ++
      [⟨st.all_vertices.length, st.all_vertices.length + 1,
        st.all_vertices.length + 2⟩,
       ⟨st.all_vertices.length, st.all_vertices.length + 2,
        st.all_vertices.length + 3⟩]) ∧
  st2.valid_3dface = st.valid_3dface + 1 ∧
  st2.invalid_3dface = st.invalid_3dface ∧
  st2.valid_polyline = st.valid_polyline ∧
  st2.invalid_polyline = st.invalid_polyline ∧
  st2.vertex_offset = st.vertex_offset

theorem faceCore_validFaceResult (st : ConvState) (cs : List Point)
    (h4 : cs.length ≤ 4) (h3 : 3 ≤ (dedup cs).length) :
    validFaceResult st cs (faceCore st cs) := by
  have hd4 : (dedup cs).length ≤ 4 := le_trans (dedup_length_le cs) h4
  rw [faceCore_valid st cs h3]
  refine ⟨rfl, by omega, ?_, ?_, rfl, rfl, rfl, rfl, rfl⟩
  · intro h
    simp [h]
  · intro h
    have hne : ¬ (dedup cs).length = 3 := by omega
    simp [hne]

/-- Claim C3: for every direct or block-nested face entity whose collected
corners yield at least 3 unique points after deduplication: exactly the
unique corners are appended to the vertex buffer in order; exactly one
triangle (c0,c1,c2) when there are 3 unique corners and exactly two
triangles (c0,c1,c2),(c0,c2,c3) sharing the first corner when there are 4;
and the valid face counter increments by exactly 1. -/
theorem c3_face_triangulation (st : ConvState) (a b c d : Option Point)
    (m : TransformMatrix) :
    (3 ≤ (dedup (([a, b, c, d]).filterMap id)).length →
      validFaceResult st (([a, b, c, d]).filterMap id)
        (process3dface st (FaceEnt.ok a b c d))) ∧
    (3 ≤ (dedup ((([a, b, c, d]).filterMap id).map m.transform)).length →
      validFaceResult st ((([a, b, c, d]).filterMap id).map m.transform)
        (processBlockFace m st (FaceEnt.ok a b c d))) := by
  have hlen : (([a, b, c, d] : List (Option Point)).filterMap id).length ≤ 4 := by
    have := List.length_filterMap_le id [a, b, c, d]
    simpa using this
  constructor
  · intro h3
    exact faceCore_validFaceResult st _ hlen h3
  · intro h3
    have hlen2 : ((([a, b, c, d] : List (Option Point)).filterMap id).map
        m.transform).length ≤ 4 := by
      simpa using hlen
    exact faceCore_validFaceResult st _ hlen2 h3

theorem c3_face_triangulation_witness :
    3 ≤ (dedup (([some ⟨0, 0, 0⟩, some ⟨1, 0, 0⟩, some ⟨0, 1, 0⟩, none] :
        List (Option Point)).filterMap id)).length ∧
    validFaceResult initState
      (([some ⟨0, 0, 0⟩, some ⟨1, 0, 0⟩, some ⟨0, 1, 0⟩, none] :
        List (Option Point)).filterMap id)
      (process3dface initState
        (FaceEnt.ok (some ⟨0, 0, 0⟩) (some ⟨1, 0, 0⟩) (some ⟨0, 1, 0⟩) none)) := by
  have h3 : 3 ≤ (dedup (([some ⟨0, 0, 0⟩, some ⟨1, 0, 0⟩, some ⟨0, 1, 0⟩, none] :
      List (Option Point)).filterMap id)).length := by
    with_unfolding_all decide
  exact ⟨h3, (c3_face_triangulation initState (some ⟨0, 0, 0⟩) (some ⟨1, 0, 0⟩)
    (some ⟨0, 1, 0⟩) none (TransformMatrix.translateBy 0 0 0)).1 h3⟩

/-- Claim C6: a direct or block-nested face entity with fewer than 3
present corners, or fewer than 3 unique corners after deduplication,
leaves the MeshBuilder buffers and the valid counter unchanged and
increments the invalid face counter by exactly 1. -/
theorem c6_degenerate_face_invalid (st : ConvState) (a b c d : Option Point)
    (m : TransformMatrix) :
    (((([a, b, c, d]).filterMap id).length < 3 ∨
        (dedup (([a, b, c, d]).filterMap id)).length < 3) →
      process3dface st (FaceEnt.ok a b c d) =
        { st with invalid_3dface := st.invalid_3dface + 1 }) ∧
    ((((([a, b, c, d]).filterMap id).map m.transform).length < 3 ∨
        (dedup ((([a, b, c, d]).filterMap id).map m.transform)).length < 3) →
      processBlockFace m st (FaceEnt.ok a b c d) =
        { st with invalid_3dface := st.invalid_3dface + 1 }) :=
  ⟨fun h => faceCore_invalid st _ h, fun h => faceCore_invalid st _ h⟩

theorem c6_degenerate_face_invalid_witness :
    ((dedup (([some ⟨0, 0, 0⟩, some ⟨0, 0, 0⟩, some ⟨1, 0, 0⟩, none] :
        List (Option Point)).filterMap id)).length < 3) ∧
    process3dface initState
        (FaceEnt.ok (some ⟨0, 0, 0⟩) (some ⟨0, 0, 0⟩) (some ⟨1, 0, 0⟩) none) =
      { initState with invalid_3dface := initState.invalid_3dface + 1 } := by
  have h : (dedup (([some ⟨0, 0, 0⟩, some ⟨0, 0, 0⟩, some ⟨1, 0, 0⟩, none] :
      List (Option Point)).filterMap id)).length < 3 := by
    with_unfolding_all decide
  exact ⟨h, (c6_degenerate_face_invalid initState (some ⟨0, 0, 0⟩) (some ⟨0, 0, 0⟩)
    (some ⟨1, 0, 0⟩) none (TransformMatrix.translateBy 0 0 0)).1 (Or.inr h)⟩

/-! ## C9: pure-translation block instances -/

theorem translateBy_transform (dx dy dz : ℚ) (p : Point) :
    (TransformMatrix.translateBy dx dy dz).transform p = p.shift dx dy dz := by
  simp [TransformMatrix.translateBy, TransformMatrix.transform, Point.shift]

/-- Scenario B's document: one block instance placed by a pure translation
(100,200,0), referencing a block with one 3-corner face at
(0,0,0),(1,0,0),(0,1,0). -/
def c9doc : Doc :=
  { faces3d := []
  , inserts := [⟨"B", TransformMatrix.translateBy 100 200 0⟩]
  , blocks := [("B", [FaceEnt.ok (some ⟨0, 0, 0⟩) (some ⟨1, 0, 0⟩)
      (some ⟨0, 1, 0⟩) none])]
  , polylines := [] }

/-- Claim C9: processing a block-nested face under a pure-translation
placement matrix (dx,dy,dz) is the same as processing a direct face whose
corners are shifted by (dx,dy,dz) — exactly, since the model's arithmetic
is exact; and Scenario B produces the 3 shifted vertices and 1 triangle. -/
theorem c9_pure_shift_equivalence (dx dy dz : ℚ) (st : ConvState) (e : FaceEnt) :
    processBlockFace (TransformMatrix.translateBy dx dy dz) st e =
      process3dface st (e.shift dx dy dz) ∧
    (runConversion c9doc).all_vertices =
      [⟨100, 200, 0⟩, ⟨101, 200, 0⟩, ⟨100, 201, 0⟩] ∧
    (runConversion c9doc).all_faces = [⟨0, 1, 2⟩] ∧
    (runConversion c9doc).valid_3dface = 1 := by
  refine ⟨?_, by with_unfolding_all rfl, by with_unfolding_all rfl,
    by with_unfolding_all rfl⟩
  cases e with
  | raising => rfl
  | ok a b c d =>
    show faceCore st _ = faceCore st _
    have harg :
        (([a, b, c, d] : List (Option Point)).filterMap id).map
            (TransformMatrix.translateBy dx dy dz).transform =
          ([a.map (fun p => p.shift dx dy dz), b.map (fun p => p.shift dx dy dz),
            c.map (fun p => p.shift dx dy dz), d.map (fun p => p.shift dx dy dz)] :
            List (Option Point)).filterMap id := by
      cases a <;> cases b <;> cases c <;> cases d <;>
        simp [translateBy_transform]
    rw [harg]

/-! ## C2 (amended): the invariant for the direct and block pipelines -/

/-- The triangle condition of claim C2: pairwise-distinct indices, all
below the vertex count `n`. -/
def triOK (n : Nat) (t : Triangle) : Prop :=
  t.i0 ≠ t.i1 ∧ t.i0 ≠ t.i2 ∧ t.i1 ≠ t.i2 ∧ t.i0 < n ∧ t.i1 < n ∧ t.i2 < n

/-- Claim C2's invariant, read off the buffers: every triangle so far has
distinct indices pointing into the vertices so far. -/
def MeshInvariant (st : ConvState) : Prop :=
  ∀ t ∈ st.all_faces, triOK st.all_vertices.length t

theorem faceCore_invariant (st : ConvState) (cs : List Point)
    (h : MeshInvariant st) : MeshInvariant (faceCore st cs) := by
  by_cases h3 : 3 ≤ (dedup cs).length
  · by_cases hlen : 3 ≤ cs.length
    · rw [faceCore, if_pos hlen, if_pos h3]
      intro t ht
      simp only [List.mem_append] at ht
      rcases ht with ht | ht
      · have hold := h t ht
        unfold triOK at hold ⊢
        simp only [List.length_append]
        omega
      · simp only [List.length_append]
        split at ht
        · rename_i hd3
          simp only [List.mem_singleton] at ht
          subst ht
          unfold triOK
          dsimp only
          omega
        · rename_i hd3
          simp only [List.mem_cons, List.mem_singleton, List.not_mem_nil,
            or_false] at ht
          rcases ht with ht | ht <;>
            · subst ht
              unfold triOK
              dsimp only
              omega
    · exact absurd (le_trans h3 (dedup_length_le cs)) hlen
  · by_cases hlen : 3 ≤ cs.length
    · rw [faceCore, if_pos hlen, if_neg h3]
      exact h
    · rw [faceCore, if_neg hlen]
      exact h

theorem processBlockFace_invariant (m : TransformMatrix) (st : ConvState)
    (e : FaceEnt) (h : MeshInvariant st) :
    MeshInvariant (processBlockFace m st e) := by
  cases e with
  | raising => exact h
  | ok a b c d => exact faceCore_invariant st _ h

theorem foldl_blockFace_invariant (m : TransformMatrix) (l : List FaceEnt) :
    ∀ st, MeshInvariant st → MeshInvariant (l.foldl (processBlockFace m) st) := by
  induction l with
  | nil => exact fun st h => h
  | cons e rest ih =>
    intro st h
    exact ih _ (processBlockFace_invariant m st e h)

/-- Amended claim C2: every triangle appended by the direct-face pipeline or
the block pipeline has three pairwise-distinct indices, each less than the
number of vertices appended to the MeshBuilder by the time the triangle is
appended (those pipelines append the entity's vertices first); the polyface
pipeline does not guarantee this (see the counterexample). -/
theorem c2_invariant_direct_block (st : ConvState) (h : MeshInvariant st) :
    (∀ e, MeshInvariant (process3dface st e)) ∧
    (∀ m e, MeshInvariant (processBlockFace m st e)) ∧
    (∀ bs ins, MeshInvariant (processInsert bs st ins)) := by
  refine ⟨?_, ?_, ?_⟩
  · intro e
    cases e with
    | raising => exact h
    | ok a b c d => exact faceCore_invariant st _ h
  · intro m e
    exact processBlockFace_invariant m st e h
  · intro bs ins
    rw [processInsert]
    cases hb : lookupBlock bs ins.name with
    | none => exact h
    | some bf => exact foldl_blockFace_invariant ins.matrix44 bf st h

theorem c2_invariant_direct_block_witness :
    MeshInvariant initState ∧
    MeshInvariant (process3dface initState
      (FaceEnt.ok (some ⟨0, 0, 0⟩) (some ⟨1, 0, 0⟩) (some ⟨0, 1, 0⟩) none)) := by
  have h0 : MeshInvariant initState := by
    intro t ht
    simp [initState] at ht
  exact ⟨h0, (c2_invariant_direct_block initState h0).1
    (FaceEnt.ok (some ⟨0, 0, 0⟩) (some ⟨1, 0, 0⟩) (some ⟨0, 1, 0⟩) none)⟩

/-! ## Polyface decoder lemmas -/

theorem vmapGet_append_none (l : List (Option Nat)) :
    ∀ i, vmapGet (l ++ [none]) i = vmapGet l i := by
  induction l with
  | nil =>
    intro i
    cases i with
    | zero => rfl
    | succ j => rfl
  | cons o rest ih =>
    intro i
    cases i with
    | zero => rfl
    | succ j => exact ih j

theorem resolveAttrs_append_none (vmap : List (Option Nat)) (off : Nat) :
    ∀ attrs, resolveAttrs (vmap ++ [none]) off attrs = resolveAttrs vmap off attrs := by
  intro attrs
  induction attrs with
  | nil => rfl
  | cons a rest ih =>
    cases a with
    | none => simpa [resolveAttrs] using ih
    | some i =>
      by_cases hi : i = 0
      · subst hi
        simpa [resolveAttrs] using ih
      · simp only [resolveAttrs, hi, if_false, vmapGet_append_none]
        cases vmapGet vmap (i.natAbs - 1) with
        | some ord => simp [ih]
        | none => simp [ih]

theorem facesOfRecord_append_none (vmap : List (Option Nat)) (off : Nat)
    (r : PolyRecord) :
    facesOfRecord (vmap ++ [none]) off r = facesOfRecord vmap off r := by
  cases hf : r.faceAttrs with
  | none => simp [facesOfRecord, hf]
  | some attrs => simp [facesOfRecord, hf, resolveAttrs_append_none]

theorem facesOfRecord_short (vmap : List (Option Nat)) (off : Nat) (r : PolyRecord)
    (h : ∀ attrs, r.faceAttrs = some attrs →
      (resolveAttrs vmap off attrs).length < 3) :
    facesOfRecord vmap off r = [] := by
  cases hf : r.faceAttrs with
  | none => simp [facesOfRecord, hf]
  | some attrs =>
    have hlen := h attrs hf
    simp only [facesOfRecord, hf]
    cases hres : resolveAttrs vmap off attrs with
    | nil => rfl
    | cons x rest =>
      cases rest with
      | nil => rfl
      | cons y rest2 =>
        cases rest2 with
        | nil => rfl
        | cons z rest3 =>
          rw [hres] at hlen
          simp only [List.length_cons] at hlen
          omega

theorem collectVerticesAux_append_locless (r : PolyRecord)
    (hr1 : r.raisesLoc = false) (hr2 : r.location = none) :
    ∀ (recs : List PolyRecord) (vs : List Point) (vmap : List (Option Nat)),
      collectVerticesAux vs vmap (recs ++ [r]) =
        match collectVerticesAux vs vmap recs with
        | Except.ok (v, m) => Except.ok (v, m ++ [none])
        | Except.error e => Except.error e := by
  intro recs
  induction recs with
  | nil =>
    intro vs vmap
    simp [collectVerticesAux, hr1, hr2]
  | cons r0 rest ih =>
    intro vs vmap
    cases h0 : r0.raisesLoc with
    | true => simp [collectVerticesAux, h0]
    | false =>
      cases hl : r0.location with
      | some p => simp [collectVerticesAux, h0, hl, ih]
      | none => simp [collectVerticesAux, h0, hl, ih]

theorem extractFaces_all_short (vmap : List (Option Nat)) (off : Nat) :
    ∀ recs : List PolyRecord,
      (∀ r ∈ recs, r.raisesFace = false ∧ facesOfRecord vmap off r = []) →
      extractFaces vmap off recs = ([], false) := by
  intro recs
  induction recs with
  | nil => intro _; rfl
  | cons r rest ih =>
    intro h
    have hr := h r (by simp)
    have hrest := ih (fun r0 hr0 => h r0 (by simp [hr0]))
    simp [extractFaces, hr.1, hr.2, hrest]

theorem extractFaces_append_locless (vmap vmap2 : List (Option Nat)) (off : Nat)
    (r : PolyRecord)
    (heq : ∀ r0, facesOfRecord vmap2 off r0 = facesOfRecord vmap off r0)
    (hr : r.raisesFace = false)
    (hshort : facesOfRecord vmap2 off r = []) :
    ∀ recs, extractFaces vmap2 off (recs ++ [r]) = extractFaces vmap off recs := by
  intro recs
  induction recs with
  | nil => simp [extractFaces, hr, hshort]
  | cons r0 rest ih =>
    cases h0 : r0.raisesFace with
    | true => simp [extractFaces, h0]
    | false => simp [extractFaces, h0, ih, heq r0]

/-- Claim C7: a zero face-index never resolves; a non-zero index i resolves
to local vertex abs(i)-1 collected in the same entity: a 4-vertex table
with face record [1,2,3,4] yields exactly the triangles (v0,v1,v2) and
(v0,v2,v3); with [1,2,3,0], exactly (v0,v1,v2); and a face record with
fewer than 3 resolved indices yields no triangles and touches no counter:
appending such a record to an entity leaves the conversion's entire result
state unchanged. -/
theorem c7_polyface_decoding :
    (∀ p0 p1 p2 p3 : Point,
      processPolyline initState ⟨true,
        [⟨false, some p0, false, none⟩, ⟨false, some p1, false, none⟩,
         ⟨false, some p2, false, none⟩, ⟨false, some p3, false, none⟩,
         ⟨false, none, false, some [some 1, some 2, some 3, some 4]⟩]⟩ =
      ⟨[p0, p1, p2, p3], [⟨0, 1, 2⟩, ⟨0, 2, 3⟩], 4, 0, 0, 1, 0⟩) ∧
    (∀ p0 p1 p2 p3 : Point,
      processPolyline initState ⟨true,
        [⟨false, some p0, false, none⟩, ⟨false, some p1, false, none⟩,
         ⟨false, some p2, false, none⟩, ⟨false, some p3, false, none⟩,
         ⟨false, none, false, some [some 1, some 2, some 3, some 0]⟩]⟩ =
      ⟨[p0, p1, p2, p3], [⟨0, 1, 2⟩], 4, 0, 0, 1, 0⟩) ∧
    (∀ (vmap : List (Option Nat)) (off : Nat) (rest : List (Option Int)),
      resolveAttrs vmap off (some 0 :: rest) = resolveAttrs vmap off rest) ∧
    (∀ (st : ConvState) (recs : List PolyRecord) (r : PolyRecord)
        (attrs : List (Option Int)),
      r.raisesLoc = false → r.raisesFace = false → r.location = none →
      r.faceAttrs = some attrs →
      (∀ (verts : List Point) (vmap : List (Option Nat)),
        collectVerticesAux [] [] recs = Except.ok (verts, vmap) →
        (resolveAttrs vmap st.vertex_offset attrs).length < 3) →
      processPolyline st ⟨true, recs ++ [r]⟩ = processPolyline st ⟨true, recs⟩) := by
  refine ⟨fun p0 p1 p2 p3 => rfl, fun p0 p1 p2 p3 => rfl, fun vmap off rest => rfl, ?_⟩
  intro st recs r attrs h1 h2 h3 hfa hshort
  cases hcv : collectVerticesAux [] [] recs with
  | error e =>
    have hcv2 : collectVerticesAux [] [] (recs ++ [r]) = Except.error e := by
      rw [collectVerticesAux_append_locless r h1 h3 recs, hcv]
    simp [processPolyline, hcv, hcv2]
  | ok pr =>
    obtain ⟨verts, vmap⟩ := pr
    have hcv2 : collectVerticesAux [] [] (recs ++ [r]) =
        Except.ok (verts, vmap ++ [none]) := by
      rw [collectVerticesAux_append_locless r h1 h3 recs, hcv]
    have hfr : facesOfRecord (vmap ++ [none]) st.vertex_offset r = [] := by
      apply facesOfRecord_short
      intro attrs2 ha
      rw [hfa] at ha
      have ha2 : attrs = attrs2 := Option.some.inj ha
      subst ha2
      rw [resolveAttrs_append_none]
      exact hshort verts vmap hcv
    have hext : extractFaces (vmap ++ [none]) st.vertex_offset (recs ++ [r]) =
        extractFaces vmap st.vertex_offset recs :=
      extractFaces_append_locless vmap (vmap ++ [none]) st.vertex_offset r
        (fun r0 => facesOfRecord_append_none vmap st.vertex_offset r0) h2 hfr recs
    simp [processPolyline, hcv, hcv2, hext]

theorem c7_polyface_decoding_witness :
    processPolyline initState ⟨true,
      [⟨false, some ⟨0, 0, 0⟩, false, none⟩,
       ⟨false, none, false, some [some 1, none, none, none]⟩]⟩ =
    processPolyline initState ⟨true, [⟨false, some ⟨0, 0, 0⟩, false, none⟩]⟩ := by
  apply c7_polyface_decoding.2.2.2 initState
    [⟨false, some ⟨0, 0, 0⟩, false, none⟩]
    ⟨false, none, false, some [some 1, none, none, none]⟩
    [some 1, none, none, none] rfl rfl rfl rfl
  intro verts vmap h
  have h2 : (([⟨0, 0, 0⟩] : List Point), ([some 0] : List (Option Nat))) =
      (verts, vmap) := Except.ok.inj h
  injection h2 with hv hm
  subst hm
  subst hv
  decide

/-! ## C10: polyface entities contributing vertices but no faces -/

/-- Claim C10: a polyface entity with coordinate records but no face record
resolving to 3 or more indices still appends all of its collected vertices
and increments the valid polyface counter; the vertex buffer can therefore
hold vertices referenced by no triangle, and such an entity alone makes the
vertex buffer non-empty for the final check. -/
theorem c10_vertices_without_faces (st : ConvState) (e : PolyEntity)
    (verts : List Point) (vmap : List (Option Nat))
    (hm : e.is_poly_face_mesh = true)
    (hcv : collectVerticesAux [] [] e.records = Except.ok (verts, vmap))
    (hshort : ∀ r ∈ e.records, r.raisesFace = false ∧
      (∀ attrs, r.faceAttrs = some attrs →
        (resolveAttrs vmap st.vertex_offset attrs).length < 3)) :
    processPolyline st e = { st with
      all_vertices := st.all_vertices ++ verts
      , vertex_offset := st.vertex_offset + verts.length
      , valid_polyline := st.valid_polyline + 1 } ∧
    (verts ≠ [] → (processPolyline st e).all_vertices ≠ []) ∧
    (processPolyline st e).all_faces = st.all_faces := by
  have hext : extractFaces vmap st.vertex_offset e.records = ([], false) := by
    apply extractFaces_all_short
    intro r hr
    exact ⟨(hshort r hr).1,
      facesOfRecord_short vmap st.vertex_offset r (hshort r hr).2⟩
  have hmain : processPolyline st e = { st with
      all_vertices := st.all_vertices ++ verts
      , vertex_offset := st.vertex_offset + verts.length
      , valid_polyline := st.valid_polyline + 1 } := by
    simp [processPolyline, hm, hcv, hext]
  refine ⟨hmain, ?_, ?_⟩
  · intro hne
    rw [hmain]
    simp [hne]
  · rw [hmain]

theorem c10_vertices_without_faces_witness :
    processPolyline initState ⟨true, [⟨false, some ⟨5, 5, 5⟩, false, none⟩]⟩ =
      { initState with
        all_vertices := initState.all_vertices ++ [⟨5, 5, 5⟩]
        , vertex_offset := initState.vertex_offset + 1
        , valid_polyline := initState.valid_polyline + 1 } ∧
    (processPolyline initState
      ⟨true, [⟨false, some ⟨5, 5, 5⟩, false, none⟩]⟩).all_vertices ≠ [] := by
  have h := c10_vertices_without_faces initState
    ⟨true, [⟨false, some ⟨5, 5, 5⟩, false, none⟩]⟩ [⟨5, 5, 5⟩] [some 0]
    rfl rfl ?hshort
  case hshort =>
    intro r hr
    simp only [List.mem_singleton] at hr
    subst hr
    exact ⟨rfl, fun attrs ha => by simp at ha⟩
  exact ⟨h.1, h.2.1 (by simp)⟩

theorem c9_pure_shift_equivalence_witness :
    processBlockFace (TransformMatrix.translateBy 100 200 0) initState
        (FaceEnt.ok (some ⟨0, 0, 0⟩) (some ⟨1, 0, 0⟩) (some ⟨0, 1, 0⟩) none) =
      process3dface initState
        ((FaceEnt.ok (some ⟨0, 0, 0⟩) (some ⟨1, 0, 0⟩)
          (some ⟨0, 1, 0⟩) none).shift 100 200 0) :=
  (c9_pure_shift_equivalence 100 200 0 initState
    (FaceEnt.ok (some ⟨0, 0, 0⟩) (some ⟨1, 0, 0⟩) (some ⟨0, 1, 0⟩) none)).1
